import Mathlib

/-!
Verification of `mapaMX` (`src/app.py`), a record-by-record viewer over a
tabular dataset of geocoded addresses.  Numeric cells are modelled over `ℚ`
(pandas floats carrying finite decimal values), with `Option ℚ` standing for
"number or missing" (`NaN`); comparisons against a missing value evaluate to
`false`, never raise, exactly as `NaN` comparisons do in the source.
-/

namespace MapaMX

/-! ## Coordinate normalizer (`to_float_series`, `src/app.py` lines 24–31) -/

/-- Value of a decimal digit character. -/
def digitVal (c : Char) : Nat := c.toNat - 48

/-- A non-empty, all-digit character list. -/
def isDigits (cs : List Char) : Bool := !cs.isEmpty && cs.all Char.isDigit

/-- Numeric value of a digit list, most significant first. -/
def natOfDigits (cs : List Char) : Nat := cs.foldl (fun a c => a * 10 + digitVal c) 0

/-- Unsigned mantissa of a decimal literal (`digits`, `digits.digits`,
`digits.` or `.digits`), valued as a numerator together with the count of
fractional digits. -/
def parseMantissa (cs : List Char) : Option (Int × Nat) :=
  match cs.splitOn '.' with
  | [ip] => if isDigits ip then some ((natOfDigits ip : Int), 0) else none
  | [ip, fp] =>
      if ip.isEmpty && fp.isEmpty then none
      else if ip.all Char.isDigit && fp.all Char.isDigit then
        some ((natOfDigits (ip ++ fp) : Int), fp.length)
      else none
  | _ => none

/-- Mantissa with an optional leading sign. -/
def parseSignedMantissa : List Char → Option (Int × Nat)
  | '-' :: rest => (parseMantissa rest).map (fun p => (-p.1, p.2))
  | '+' :: rest => parseMantissa rest
  | cs => parseMantissa cs

/-- Exponent part: an optionally signed digit string. -/
def parseSignedInt : List Char → Option Int
  | '-' :: rest => if isDigits rest then some (-(natOfDigits rest : Int)) else none
  | '+' :: rest => if isDigits rest then some ((natOfDigits rest : Int)) else none
  | cs => if isDigits cs then some ((natOfDigits cs : Int)) else none

/-- The rational `num / 10 ^ frac * 10 ^ ex` denoted by a parsed literal. -/
def ratOfParts (num : Int) (frac : Nat) (ex : Int) : ℚ :=
  let k : Int := ex - (frac : Int)
  if 0 ≤ k then mkRat (num * 10 ^ k.toNat) 1 else mkRat num (10 ^ (-k).toNat)

/-- Numeric parse of a cleaned cell, modelling `pd.to_numeric(_, errors="coerce")`
on one string: an optionally signed decimal literal with an optional scientific
exponent.  Anything else (including non-finite spellings, which denote no
rational) is coerced to missing. -/
def parseRat (cs₀ : List Char) : Option ℚ :=
  let cs := cs₀.map Char.toLower
  match cs.splitOn 'e' with
  | [m] => (parseSignedMantissa m).map (fun p => ratOfParts p.1 p.2 0)
  | [m, ex] => do
      let p ← parseSignedMantissa m
      let ev ← parseSignedInt ex
      pure (ratOfParts p.1 p.2 ev)
  | _ => none

/-- `.str.strip()`: drop surrounding whitespace. -/
def stripChars (cs : List Char) : List Char :=
  ((cs.dropWhile Char.isWhitespace).reverse.dropWhile Char.isWhitespace).reverse

/-- `.str.replace(" ", "", regex=False)`: remove every space. -/
def removeSpaces (cs : List Char) : List Char :=
  cs.filter (fun c => c ≠ ' ')

/-- `.str.replace(",", ".", regex=False)`: decimal comma becomes decimal point. -/
def commaToDot (cs : List Char) : List Char :=
  cs.map (fun c => if c = ',' then '.' else c)

/-- `to_float_series` applied to one cell (`src/app.py` lines 24–31): coerce to
text, strip surrounding whitespace, remove interior spaces, turn the decimal
comma into a point, then parse numerically, coercing failures to missing. -/
def to_float (s : String) : Option ℚ :=
  parseRat (commaToDot (removeSpaces (stripChars s.data)))

/-- `to_float_series` (`src/app.py` lines 24–31), elementwise over a column. -/
def to_float_series (col : List String) : List (Option ℚ) :=
  col.map to_float

example : to_float "40,5" = some (mkRat 405 10) := by decide
example : to_float "  -3.1 " = some (mkRat (-31) 10) := by decide
example : to_float "" = none := by decide
example : to_float "abc" = none := by decide
example : to_float "1e2" = some (mkRat 100 1) := by decide
example : to_float " 4 0 , 5 " = some (mkRat 405 10) := by decide
example : to_float "nan" = none := by decide
example : mkRat 405 10 = (40.5 : ℚ) := by norm_num [Rat.mkRat_eq_div]

/-! ## Schema validator (`validate_required_columns`, `src/app.py` lines 33–34) -/

/-- `validate_required_columns`: the required names absent from the table's
columns, in the order of the required list. -/
def validate_required_columns (df_columns required_cols : List String) : List String :=
  required_cols.filter (fun c => !df_columns.contains c)

/-- The required columns of the richer variant (`src/app.py` line 83). -/
def required_columns : List String :=
  ["PP_latitud", "PP_longitud", "lat", "lng", "PP_method", "score", "PP_diferencia"]

/-! ## Record store (`load_dataframe`, `src/app.py` lines 17–22) -/

/-- A loaded table: rows in source order, indexed by `record_id = position + 1`. -/
structure RecordStore (α : Type) where
  rows : List α

/-- `load_dataframe`: parse rows preserving source order (the `record_id`
index column is `df.index + 1`, recovered by `record_ids` below). -/
def load_dataframe {α : Type} (rows : List α) : RecordStore α := ⟨rows⟩

/-- The `record_id` index column: `df.index + 1` in source order. -/
def RecordStore.record_ids {α : Type} (s : RecordStore α) : List Nat :=
  (List.range s.rows.length).map (· + 1)

/-- `df.loc[i]` on the `record_id` index: the row at zero-based position
`i - 1`, or a not-found condition (`none`, a `KeyError` in the source)
when `i` is outside `[1, rowcount]`. -/
def RecordStore.loc {α : Type} (s : RecordStore α) (i : Nat) : Option α :=
  if 1 ≤ i then s.rows.get? (i - 1) else none

/-! ## Record-count caption and selection widget (`src/app.py` lines 101–110) -/

/-- `total_records = int(df.index.max())`: the largest `record_id`. -/
def RecordStore.total_records {α : Type} (s : RecordStore α) : Nat :=
  s.record_ids.foldr max 0

/-- The count shown by the caption `Registros disponibles: {total_records+1}`. -/
def RecordStore.caption_count {α : Type} (s : RecordStore α) : Nat :=
  s.total_records + 1

/-- The upper bound named by the prompt
`Seleccionar Número de Registro (1-{total_records+1}):`. -/
def RecordStore.prompt_upper {α : Type} (s : RecordStore α) : Nat :=
  s.total_records + 1

/-- Whether `st.number_input` (with `min_value=1, max_value=total_records`)
accepts `i` as a selection. -/
def RecordStore.widget_accepts {α : Type} (s : RecordStore α) (i : Nat) : Bool :=
  1 ≤ i && i ≤ s.total_records

/-! ## Records and the marker policy (`src/app.py` lines 83–171) -/

/-- One row after the numeric columns were passed through `to_float_series`
(`src/app.py` lines 89–95).  `PP_method` stays raw: a missing cell (pandas
`NaN`) is `none` and reaches the policy through `str(...)` as `"nan"`. -/
structure Record where
  PP_latitud : Option ℚ
  PP_longitud : Option ℚ
  lat : Option ℚ
  lng : Option ℚ
  PP_method : Option String
  score : Option ℚ
  PP_diferencia : Option ℚ

/-- One raw CSV row of the seven required columns, before normalization. -/
structure RawRow where
  PP_latitud : String
  PP_longitud : String
  lat : String
  lng : String
  PP_method : Option String
  score : String
  PP_diferencia : String

/-- Lines 89–95: normalize the six numeric columns, leave `PP_method` raw. -/
def Record.ofRaw (raw : RawRow) : Record :=
  { PP_latitud := to_float raw.PP_latitud
    PP_longitud := to_float raw.PP_longitud
    lat := to_float raw.lat
    lng := to_float raw.lng
    PP_method := raw.PP_method
    score := to_float raw.score
    PP_diferencia := to_float raw.PP_diferencia }

/-- `float(x) < t` on a normalized cell: a missing value (`NaN`) compares
`false` and never raises. -/
def qlt (x : Option ℚ) (t : ℚ) : Bool :=
  match x with
  | some v => decide (v < t)
  | none => false

/-- `float(x) > t` on a normalized cell: a missing value (`NaN`) compares
`false` and never raises. -/
def qgt (x : Option ℚ) (t : ℚ) : Bool :=
  match x with
  | some v => decide (t < v)
  | none => false

/-- `str(row["PP_method"]).upper()`: a missing cell prints as `"nan"`. -/
def method_upper (m : Option String) : List Char :=
  match m with
  | some s => s.data.map Char.toUpper
  | none => ("nan".data).map Char.toUpper

/-- `str(row["PP_method"]).upper() == "EXACT"` (line 141, left conjunct). -/
def method_is_exact (m : Option String) : Bool :=
  method_upper m == "EXACT".data

/-- `pp_valid` (line 128): both reference coordinates present and numeric. -/
def pp_valid (r : Record) : Bool :=
  r.PP_latitud.isSome && r.PP_longitud.isSome

/-- `pp_condition` (line 141): method equals `"EXACT"` case-insensitively and
the difference is strictly below 100; missing cells make it `false`. -/
def pp_condition (r : Record) : Bool :=
  method_is_exact r.PP_method && qlt r.PP_diferencia 100

/-- `geo_color` (line 142): `"green"` when `score > 0.5`, else `"gray"`. -/
def geo_color (r : Record) : String :=
  if qgt r.score (0.5 : ℚ) then "green" else "gray"

/-- The map built by lines 138–171: center, zoom, the always-present geocoded
marker (number 1), the optional reference marker (number 2), the optional
connecting line and the optional bounds-fit request. -/
structure MapView where
  center : ℚ × ℚ
  zoom : Nat
  geoMarker : ℚ × ℚ
  geoColor : String
  refMarker : Option (ℚ × ℚ)
  refColor : String
  drawLine : Bool
  fitBounds : Bool

/-- Result of the render pass for one selected record: either the
`CoordinateMissing` warning (non-blocking, no map, raw row still displayed,
lines 120–123) or a map plus the raw-row display (lines 138–176). -/
inductive RenderOutput where
  | coordinateMissing (row : Record)
  | mapView (m : MapView) (row : Record)

/-- The render pass over one selected record (`src/app.py` lines 114–176). -/
def render (r : Record) : RenderOutput :=
  match r.lat, r.lng with
  | some geoLat, some geoLng =>
      let ppPair : Option (ℚ × ℚ) :=
        match r.PP_latitud, r.PP_longitud with
        | some a, some b => some (a, b)
        | _, _ => none
      let c : ℚ × ℚ :=
        match ppPair with
        | some pq => ((pq.1 + geoLat) / 2, (pq.2 + geoLng) / 2)
        | none => (geoLat, geoLng)
      let show2 : Bool := ppPair.isSome && pp_condition r
      RenderOutput.mapView
        { center := c
          zoom := 15
          geoMarker := (geoLat, geoLng)
          geoColor := geo_color r
          refMarker := if show2 then ppPair else none
          refColor := "green"
          drawLine := show2
          fitBounds := show2 } r
  | _, _ => RenderOutput.coordinateMissing r

/-- Whether the pass produced a map at all. -/
def RenderOutput.hasMap : RenderOutput → Bool
  | .mapView _ _ => true
  | .coordinateMissing _ => false

/-- Whether the pass emitted the `CoordinateMissing` warning. -/
def RenderOutput.warnsCoordinateMissing : RenderOutput → Bool
  | .mapView _ _ => false
  | .coordinateMissing _ => true

/-- The raw row displayed under the output (shown in both outcomes). -/
def RenderOutput.shownRow : RenderOutput → Record
  | .mapView _ row => row
  | .coordinateMissing row => row

/-- Whether the reference marker (number 2) is displayed. -/
def RenderOutput.showRef : RenderOutput → Bool
  | .mapView m _ => m.refMarker.isSome
  | .coordinateMissing _ => false

/-- Whether the connecting line is drawn. -/
def RenderOutput.drawsLine : RenderOutput → Bool
  | .mapView m _ => m.drawLine
  | .coordinateMissing _ => false

/-- Whether a bounds-fit is requested. -/
def RenderOutput.fitsBounds : RenderOutput → Bool
  | .mapView m _ => m.fitBounds
  | .coordinateMissing _ => false

/-- The map center, when a map was produced. -/
def RenderOutput.center? : RenderOutput → Option (ℚ × ℚ)
  | .mapView m _ => some m.center
  | .coordinateMissing _ => none

/-- The geocoded marker's color, when a map was produced. -/
def RenderOutput.geoColor? : RenderOutput → Option String
  | .mapView m _ => some m.geoColor
  | .coordinateMissing _ => none

/-! ## Concrete rows used as evaluation inputs -/

/-- §8's first policy example: `method="exact"`, `difference=50`, `score=0.8`,
both points present. -/
def exampleExact : Record :=
  ⟨some 4, some 5, some 6, some 7, some "exact", some (0.8 : ℚ), some 50⟩

/-- §8's non-exact policy example: `method="interpolated"`, both pairs valid,
reference `(0,0)` and geocoded `(2,2)`. -/
def exampleInterp : Record :=
  ⟨some 0, some 0, some 2, some 2, some "interpolated", some 1, some 10⟩

/-- §8's low-score example: `score=0.4`, reference usable and exact with
`difference=10`. -/
def exampleLowScore : Record :=
  ⟨some 4, some 5, some 6, some 7, some "EXACT", some (0.4 : ℚ), some 10⟩

/-- §8's end-to-end example: a raw row whose geocoded latitude is the empty
string. -/
def exampleNoGeo : RawRow :=
  { PP_latitud := "19.43"
    PP_longitud := "-99,13"
    lat := ""
    lng := "-99.13"
    PP_method := some "EXACT"
    score := "0.9"
    PP_diferencia := "5" }

/-- A column set missing exactly `lat` and `score`. -/
def columnsMissingTwo : List String :=
  ["PP_latitud", "PP_longitud", "lng", "PP_method", "PP_diferencia", "direccion"]

/-! ## Helper lemmas -/

theorem isSome_ite_some {α : Type} (c : Bool) (x : α) :
    (if c then some x else none).isSome = c := by
  cases c <;> rfl

theorem render_missing (r : Record) (h : r.lat = none ∨ r.lng = none) :
    render r = RenderOutput.coordinateMissing r := by
  obtain ⟨pla, plo, la, lo, me, sc, di⟩ := r
  cases la <;> cases lo <;> simp_all [render]

theorem render_pp_some (a b glat glng : ℚ) (me : Option String) (sc di : Option ℚ) :
    render ⟨some a, some b, some glat, some glng, me, sc, di⟩
      = RenderOutput.mapView
          { center := ((a + glat) / 2, (b + glng) / 2)
            zoom := 15
            geoMarker := (glat, glng)
            geoColor := geo_color ⟨some a, some b, some glat, some glng, me, sc, di⟩
            refMarker :=
              if pp_condition ⟨some a, some b, some glat, some glng, me, sc, di⟩ then
                some (a, b)
              else none
            refColor := "green"
            drawLine := pp_condition ⟨some a, some b, some glat, some glng, me, sc, di⟩
            fitBounds := pp_condition ⟨some a, some b, some glat, some glng, me, sc, di⟩ }
          ⟨some a, some b, some glat, some glng, me, sc, di⟩ := rfl

theorem render_facts (r : Record) (glat glng : ℚ)
    (hl : r.lat = some glat) (hg : r.lng = some glng) :
    (render r).hasMap = true
    ∧ (render r).shownRow = r
    ∧ (render r).geoColor? = some (geo_color r)
    ∧ (render r).showRef = (pp_valid r && pp_condition r)
    ∧ (render r).drawsLine = (pp_valid r && pp_condition r)
    ∧ (render r).fitsBounds = (pp_valid r && pp_condition r)
    ∧ (∀ a b, r.PP_latitud = some a → r.PP_longitud = some b →
        (render r).center? = some ((a + glat) / 2, (b + glng) / 2))
    ∧ (pp_valid r = false → (render r).center? = some (glat, glng)) := by
  obtain ⟨pla, plo, la, lo, me, sc, di⟩ := r
  obtain rfl : la = some glat := hl
  obtain rfl : lo = some glng := hg
  cases pla <;> cases plo
  · exact ⟨rfl, rfl, rfl, rfl, rfl, rfl, fun a b h1 _ => by simp at h1, fun _ => rfl⟩
  · exact ⟨rfl, rfl, rfl, rfl, rfl, rfl, fun a b h1 _ => by simp at h1, fun _ => rfl⟩
  · exact ⟨rfl, rfl, rfl, rfl, rfl, rfl, fun a b _ h2 => by simp at h2, fun _ => rfl⟩
  · rename_i a' b'
    rw [render_pp_some]
    refine ⟨rfl, rfl, rfl, ?_, ?_, ?_, ?_, ?_⟩
    · rw [RenderOutput.showRef, isSome_ite_some]
      simp [pp_valid]
    · simp [RenderOutput.drawsLine, pp_valid]
    · simp [RenderOutput.fitsBounds, pp_valid]
    · intro a b h1 h2
      simp only [Option.some.injEq] at h1 h2
      subst h1; subst h2; rfl
    · intro h; simp [pp_valid] at h

theorem hasMap_lat_lng (r : Record) (h : (render r).hasMap = true) :
    ∃ glat glng, r.lat = some glat ∧ r.lng = some glng := by
  rcases hl : r.lat with _ | glat
  · rw [render_missing r (Or.inl hl)] at h; simp [RenderOutput.hasMap] at h
  rcases hg : r.lng with _ | glng
  · rw [render_missing r (Or.inr hg)] at h; simp [RenderOutput.hasMap] at h
  exact ⟨glat, glng, rfl, rfl⟩

theorem foldr_max_shift (l : List Nat) (b : Nat) :
    l.foldr max b = max (l.foldr max 0) b := by
  induction l with
  | nil => simp
  | cons a l ih => simp [List.foldr_cons, ih]; omega

theorem foldr_max_range (n : Nat) : ((List.range n).map (· + 1)).foldr max 0 = n := by
  induction n with
  | zero => rfl
  | succ n ih =>
      rw [List.range_succ, List.map_append, List.foldr_append]
      simp only [List.map_cons, List.map_nil, List.foldr_cons, List.foldr_nil]
      rw [foldr_max_shift, ih]
      omega

theorem total_records_eq {α : Type} (rows : List α) :
    (load_dataframe rows).total_records = rows.length :=
  foldr_max_range rows.length

theorem qgt_eq_true_iff (x : Option ℚ) (t : ℚ) :
    qgt x t = true ↔ ∃ v, x = some v ∧ t < v := by
  rcases x with _ | v <;> simp [qgt]

/-! ## Claims -/

/-- C1: for every record that reaches the map stage (display decisions exist
only once a map is produced; a record lacking geocoded coordinates is rejected
before any marker decision, claim C8), the reference marker (number 2) is
displayed iff the reference point is usable AND the method compared
case-insensitively equals "EXACT" AND the difference is strictly below 100;
a missing method or difference makes the condition false instead of raising. -/
theorem C1_reference_marker_display (r : Record) (glat glng : ℚ)
    (hl : r.lat = some glat) (hg : r.lng = some glng) :
    ((render r).showRef
      = (pp_valid r && (method_is_exact r.PP_method && qlt r.PP_diferencia 100)))
    ∧ (r.PP_method = none → pp_condition r = false)
    ∧ (r.PP_diferencia = none → pp_condition r = false) := by
  refine ⟨(render_facts r glat glng hl hg).2.2.2.1, ?_, ?_⟩
  · intro h
    simp only [pp_condition, h]
    rw [show method_is_exact none = false from by decide]
    rfl
  · intro h
    simp only [pp_condition, h]
    rw [show qlt none 100 = false from rfl]
    simp

/-- C1 witness: §8's first example row (`method="exact"`, `difference=50`)
shows the marker. -/
theorem C1_reference_marker_display_witness :
    ((render exampleExact).showRef
      = (pp_valid exampleExact
          && (method_is_exact exampleExact.PP_method
              && qlt exampleExact.PP_diferencia 100)))
    ∧ (render exampleExact).showRef = true := by
  refine ⟨(C1_reference_marker_display exampleExact 6 7 rfl rfl).1, ?_⟩
  decide

/-- C2 counterexample: a `method="interpolated"` record with both pairs valid
(reference `(0,0)`, geocoded `(2,2)`) suppresses the reference marker as
claimed, but the map centers at the midpoint `(1,1)`, not at the geocoded
point `(2,2)`. -/
theorem C2_center_counterexample :
    exampleInterp.PP_method = some "interpolated"
    ∧ pp_valid exampleInterp = true
    ∧ exampleInterp.lat = some 2 ∧ exampleInterp.lng = some 2
    ∧ (render exampleInterp).showRef = false
    ∧ (render exampleInterp).center? = some ((1 : ℚ), (1 : ℚ))
    ∧ (render exampleInterp).center? ≠ some ((2 : ℚ), (2 : ℚ)) := by
  have h : (render exampleInterp).center?
      = some (((0 : ℚ) + 2) / 2, ((0 : ℚ) + 2) / 2) := rfl
  refine ⟨rfl, rfl, rfl, rfl, by decide, ?_, ?_⟩
  · rw [h]; norm_num
  · rw [h]
    simp only [ne_eq, Option.some.injEq, Prod.mk.injEq, not_and]
    intro h1
    norm_num at h1

/-- C2 (amended): for a record with method `"interpolated"` and both
coordinate pairs present and valid, the reference marker is suppressed, no
line is drawn and no bounds-fit is requested; the map center is the
component-wise midpoint of the reference and geocoded points, which equals
the geocoded point exactly iff the two pairs coincide. -/
theorem C2_interpolated_policy (r : Record) (plat plng glat glng : ℚ)
    (hm : r.PP_method = some "interpolated")
    (h1 : r.PP_latitud = some plat) (h2 : r.PP_longitud = some plng)
    (h3 : r.lat = some glat) (h4 : r.lng = some glng) :
    (render r).showRef = false
    ∧ (render r).drawsLine = false
    ∧ (render r).fitsBounds = false
    ∧ (render r).center? = some ((plat + glat) / 2, (plng + glng) / 2)
    ∧ ((render r).center? = some (glat, glng) ↔ (plat = glat ∧ plng = glng)) := by
  have hfacts := render_facts r glat glng h3 h4
  have hcond : pp_condition r = false := by
    simp only [pp_condition, hm]
    rw [show method_is_exact (some "interpolated") = false from by decide]
    rfl
  have hcen := hfacts.2.2.2.2.2.2.1 plat plng h1 h2
  refine ⟨?_, ?_, ?_, hcen, ?_⟩
  · rw [hfacts.2.2.2.1, hcond, Bool.and_false]
  · rw [hfacts.2.2.2.2.1, hcond, Bool.and_false]
  · rw [hfacts.2.2.2.2.2.1, hcond, Bool.and_false]
  · rw [hcen]
    simp only [Option.some.injEq, Prod.mk.injEq]
    constructor
    · rintro ⟨e1, e2⟩
      exact ⟨by linarith, by linarith⟩
    · rintro ⟨rfl, rfl⟩
      exact ⟨by ring, by ring⟩

/-- C2 witness: the concrete interpolated row, marker suppressed and center
at the midpoint. -/
theorem C2_interpolated_policy_witness :
    (render exampleInterp).showRef = false
    ∧ (render exampleInterp).center? = some (((0 : ℚ) + 2) / 2, ((0 : ℚ) + 2) / 2) := by
  have h := C2_interpolated_policy exampleInterp 0 0 2 2 rfl rfl rfl rfl rfl
  exact ⟨h.1, h.2.2.2.1⟩

/-- C3: for every displayable record the center is the component-wise midpoint
of reference and geocoded pairs when the reference is usable, and the geocoded
point itself otherwise. -/
theorem C3_center_spec (r : Record) (glat glng : ℚ)
    (h3 : r.lat = some glat) (h4 : r.lng = some glng) :
    (∀ plat plng, r.PP_latitud = some plat → r.PP_longitud = some plng →
        (render r).center? = some ((plat + glat) / 2, (plng + glng) / 2))
    ∧ (pp_valid r = false → (render r).center? = some (glat, glng)) :=
  ⟨(render_facts r glat glng h3 h4).2.2.2.2.2.2.1,
   (render_facts r glat glng h3 h4).2.2.2.2.2.2.2⟩

/-- C3 witness: reference `(4,5)`, geocoded `(6,7)` center at `(5,6)`. -/
theorem C3_center_spec_witness :
    (render exampleExact).center? = some ((5 : ℚ), (6 : ℚ)) := by
  have h := (C3_center_spec exampleExact 6 7 rfl rfl).1 4 5 rfl rfl
  rw [h]
  norm_num

/-- C4: the geocoded marker is green iff `score > 0.5` and gray otherwise;
a missing score compares false and yields gray; the color depends only on the
score, not on the reference marker's state. -/
theorem C4_geo_color_spec (r : Record) :
    (geo_color r = "green" ∨ geo_color r = "gray")
    ∧ (geo_color r = "green" ↔ ∃ s, r.score = some s ∧ (0.5 : ℚ) < s)
    ∧ (r.score = none → geo_color r = "gray")
    ∧ (∀ r' : Record, r'.score = r.score → geo_color r' = geo_color r)
    ∧ (∀ glat glng, r.lat = some glat → r.lng = some glng →
        (render r).geoColor? = some (geo_color r)) := by
  refine ⟨?_, ?_, ?_, ?_, ?_⟩
  · unfold geo_color; split <;> simp
  · unfold geo_color
    cases hq : qgt r.score (0.5 : ℚ)
    · constructor
      · intro hgg; exact absurd hgg (by decide)
      · intro hex
        exact absurd ((qgt_eq_true_iff _ _).2 hex) (by simp [hq])
    · exact ⟨fun _ => (qgt_eq_true_iff _ _).1 hq, fun _ => rfl⟩
  · intro h; unfold geo_color; rw [h]; rfl
  · intro r' h; unfold geo_color; rw [h]
  · intro glat glng h3 h4
    exact (render_facts r glat glng h3 h4).2.2.1

/-- C4 witness: §8's `score=0.4` row with a usable exact reference is gray
while the reference marker is shown. -/
theorem C4_geo_color_spec_witness :
    geo_color exampleLowScore = "gray"
    ∧ (render exampleLowScore).geoColor? = some "gray"
    ∧ (render exampleLowScore).showRef = true := by
  have h := C4_geo_color_spec exampleLowScore
  have hng : ¬(geo_color exampleLowScore = "green") := by
    rw [h.2.1]
    rintro ⟨s, hs, hlt⟩
    simp only [exampleLowScore, Option.some.injEq] at hs
    subst hs
    norm_num at hlt
  have hg : geo_color exampleLowScore = "gray" := (h.1).resolve_left hng
  refine ⟨hg, ?_, by decide⟩
  rw [h.2.2.2.2 6 7 rfl rfl, hg]

/-- C5: the normalizer strips surrounding whitespace, removes interior
spaces, replaces the decimal comma, then parses numerically; empty or
unparseable cells become missing.  Never raising is by construction:
`to_float` is a total function into `Option ℚ`, and the pipeline equation
holds for every input string. -/
theorem C5_normalizer_spec :
    to_float "40,5" = some (40.5 : ℚ)
    ∧ to_float "  -3.1 " = some (-3.1 : ℚ)
    ∧ to_float "" = none
    ∧ to_float "abc" = none
    ∧ (∀ s : String,
        to_float s = parseRat (commaToDot (removeSpaces (stripChars s.data))))
    ∧ (∀ col : List String, to_float_series col = col.map to_float) := by
  refine ⟨?_, ?_, by decide, by decide, fun s => rfl, fun col => rfl⟩
  · rw [show to_float "40,5" = some (mkRat 405 10) from by decide]
    norm_num [Rat.mkRat_eq_div]
  · rw [show to_float "  -3.1 " = some (mkRat (-31) 10) from by decide]
    norm_num [Rat.mkRat_eq_div]

/-- C6: the validator returns exactly the required names absent from the
table, in required-list order (a sublist of the required list), and is empty
iff all required columns are present. -/
theorem C6_validate_required_columns_spec (df_columns required_cols : List String) :
    (∀ c, c ∈ validate_required_columns df_columns required_cols ↔
        (c ∈ required_cols ∧ c ∉ df_columns))
    ∧ List.Sublist (validate_required_columns df_columns required_cols) required_cols
    ∧ (validate_required_columns df_columns required_cols = [] ↔
        ∀ c ∈ required_cols, c ∈ df_columns) := by
  refine ⟨fun c => ?_, List.filter_sublist _, ?_⟩
  · simp [validate_required_columns]
  · simp [validate_required_columns, List.filter_eq_nil_iff]

/-- C6 witness: a table missing exactly `lat` and `score` reports
`["lat", "score"]` in required order; a complete table reports nothing. -/
theorem C6_validate_required_columns_witness :
    validate_required_columns columnsMissingTwo required_columns = ["lat", "score"]
    ∧ validate_required_columns required_columns required_columns = []
    ∧ ("lat" ∈ validate_required_columns columnsMissingTwo required_columns ↔
        ("lat" ∈ required_columns ∧ "lat" ∉ columnsMissingTwo)) :=
  ⟨by decide, by decide,
   (C6_validate_required_columns_spec columnsMissingTwo required_columns).1 "lat"⟩

/-- C7: an n-row source yields identifiers 1..n, unique, contiguous and in
source order; identifier n+1 is a not-found condition and identifier 0 is out
of range. -/
theorem C7_record_store_spec {α : Type} (rows : List α) :
    (load_dataframe rows).record_ids = (List.range rows.length).map (· + 1)
    ∧ ((load_dataframe rows).record_ids).Nodup
    ∧ (∀ j, j ∈ (load_dataframe rows).record_ids ↔ (1 ≤ j ∧ j ≤ rows.length))
    ∧ (∀ k, k < rows.length →
        (load_dataframe rows).record_ids[k]? = some (k + 1))
    ∧ (∀ i, 1 ≤ i → i ≤ rows.length →
        (load_dataframe rows).loc i = rows[i - 1]?
        ∧ ((load_dataframe rows).loc i).isSome = true)
    ∧ (load_dataframe rows).loc (rows.length + 1) = none
    ∧ (load_dataframe rows).loc 0 = none := by
  refine ⟨rfl, ?_, ?_, ?_, ?_, ?_, rfl⟩
  · exact (List.nodup_range _).map (add_left_injective 1)
  · intro j
    simp only [RecordStore.record_ids, load_dataframe, List.mem_map, List.mem_range]
    constructor
    · rintro ⟨k, hk, rfl⟩; omega
    · intro h; exact ⟨j - 1, by omega, by omega⟩
  · intro k hk
    simp [RecordStore.record_ids, load_dataframe, List.getElem?_map, List.getElem?_range, hk]
  · intro i h1 h2
    have hlt : i - 1 < rows.length := by omega
    have hloc : (load_dataframe rows).loc i = rows[i - 1]? := by
      simp [RecordStore.loc, load_dataframe, h1]
    refine ⟨hloc, ?_⟩
    rw [hloc, List.getElem?_eq_getElem hlt]
    rfl
  · simp [RecordStore.loc, load_dataframe]

/-- C7 witness: the 3-row example of §8. -/
theorem C7_record_store_witness :
    (load_dataframe ["a", "b", "c"]).record_ids = [1, 2, 3]
    ∧ (load_dataframe ["a", "b", "c"]).loc 2 = some "b"
    ∧ (load_dataframe ["a", "b", "c"]).loc 4 = none
    ∧ (load_dataframe ["a", "b", "c"]).loc 0 = none := by
  have h := C7_record_store_spec ["a", "b", "c"]
  refine ⟨by decide, ?_, ?_, h.2.2.2.2.2.2⟩
  · rw [(h.2.2.2.2.1 2 (by decide) (by decide)).1]; decide
  · simpa using h.2.2.2.2.2.1

/-- C8: a selected record with a missing normalized geocoded coordinate —
in particular one whose source cell is the empty string — makes the render
pass emit the CoordinateMissing warning, produce no map, and still display
the raw row; nothing further happens for that record. -/
theorem C8_coordinate_missing_spec :
    (∀ r : Record, r.lat = none ∨ r.lng = none →
        (render r).warnsCoordinateMissing = true
        ∧ (render r).hasMap = false
        ∧ (render r).shownRow = r)
    ∧ (∀ raw : RawRow, raw.lat = "" →
        (render (Record.ofRaw raw)).warnsCoordinateMissing = true
        ∧ (render (Record.ofRaw raw)).hasMap = false
        ∧ (render (Record.ofRaw raw)).shownRow = Record.ofRaw raw) := by
  have key : ∀ r : Record, r.lat = none ∨ r.lng = none →
      (render r).warnsCoordinateMissing = true
      ∧ (render r).hasMap = false
      ∧ (render r).shownRow = r := by
    intro r h
    rw [render_missing r h]
    exact ⟨rfl, rfl, rfl⟩
  refine ⟨key, fun raw h => key _ (Or.inl ?_)⟩
  show to_float raw.lat = none
  rw [h]
  decide

/-- C8 witness: the §8 end-to-end row with an empty geocoded latitude. -/
theorem C8_coordinate_missing_witness :
    (render (Record.ofRaw exampleNoGeo)).warnsCoordinateMissing = true
    ∧ (render (Record.ofRaw exampleNoGeo)).hasMap = false := by
  have h := C8_coordinate_missing_spec.2 exampleNoGeo rfl
  exact ⟨h.1, h.2.1⟩

/-- C9: for every record that produces a map, the line and the bounds-fit
decisions coincide with the reference-marker decision; all three equal the
one shared condition `pp_valid && pp_condition`. -/
theorem C9_line_bounds_spec (r : Record) (h : (render r).hasMap = true) :
    (render r).drawsLine = (render r).showRef
    ∧ (render r).fitsBounds = (render r).showRef
    ∧ (render r).showRef = (pp_valid r && pp_condition r) := by
  obtain ⟨glat, glng, hl, hg⟩ := hasMap_lat_lng r h
  have hf := render_facts r glat glng hl hg
  refine ⟨?_, ?_, hf.2.2.2.1⟩
  · rw [hf.2.2.2.2.1, hf.2.2.2.1]
  · rw [hf.2.2.2.2.2.1, hf.2.2.2.1]

/-- C9 witness: the exact example row draws marker, line and bounds-fit
together. -/
theorem C9_line_bounds_spec_witness :
    (render exampleExact).drawsLine = (render exampleExact).showRef
    ∧ (render exampleExact).showRef
        = (pp_valid exampleExact && pp_condition exampleExact)
    ∧ (render exampleExact).drawsLine = true := by
  have h := C9_line_bounds_spec exampleExact rfl
  exact ⟨h.1, h.2.2, by decide⟩

/-- C10: for an n-row table (n ≥ 1) the caption count and the prompt's upper
bound both equal n+1 while the selection widget accepts exactly [1, n]; the
advertised identifier n+1 can never be selected. -/
theorem C10_caption_overcount {α : Type} (rows : List α) (h : 1 ≤ rows.length) :
    (load_dataframe rows).total_records = rows.length
    ∧ (load_dataframe rows).caption_count = rows.length + 1
    ∧ (load_dataframe rows).prompt_upper = rows.length + 1
    ∧ (∀ i, (load_dataframe rows).widget_accepts i = true ↔ (1 ≤ i ∧ i ≤ rows.length))
    ∧ (load_dataframe rows).widget_accepts (rows.length + 1) = false := by
  have ht := total_records_eq rows
  refine ⟨ht, ?_, ?_, ?_, ?_⟩
  · simp only [RecordStore.caption_count, ht]
  · simp only [RecordStore.prompt_upper, ht]
  · intro i
    simp only [RecordStore.widget_accepts, ht, Bool.and_eq_true, decide_eq_true_eq]
  · simp only [RecordStore.widget_accepts, ht]
    simp

/-- C10 witness: a 3-row table advertises 4 records; 4 is not selectable,
3 is. -/
theorem C10_caption_overcount_witness :
    (load_dataframe [10, 20, 30]).caption_count = 4
    ∧ (load_dataframe [10, 20, 30]).widget_accepts 4 = false
    ∧ (load_dataframe [10, 20, 30]).widget_accepts 3 = true := by
  have h := C10_caption_overcount [10, 20, 30] (by decide)
  refine ⟨by simpa using h.2.1, by simpa using h.2.2.2.2, ?_⟩
  exact (h.2.2.2.1 3).2 (by decide)

end MapaMX
